import Mathlib

/-!
Verification of the Valetudo MQTT bridge (`src/lib/MqttClient.js` and the miio
`Codec`) against its natural-language specification.

JavaScript values that matter to the claims are modelled shallowly:
objects become `JVal` (an ordered field list, since JS objects preserve
insertion order and `JSON.stringify` serializes fields in that order),
numbers that the code only ever treats as integers become `Int`, numbers fed
through division/`toFixed` become `ℚ`, `undefined`-able values become
`Option`, and promise outcomes become `Except Unit`.
-/

namespace Valetudo

/-- A JSON-like JavaScript value: number, string, boolean, or object with an
ordered field list (JS objects preserve insertion order). -/
inductive JVal where
  | jnum : Int → JVal
  | jstr : String → JVal
  | jbool : Bool → JVal
  | jobj : List (String × JVal) → JVal

mutual

/-- `JSON.stringify` on a `JVal`: fields are serialized in insertion order. -/
def stringify : JVal → String
  | .jnum n => toString n
  | .jstr s => "\"" ++ s ++ "\""
  | .jbool b => if b then "true" else "false"
  | .jobj fs => "\x7b" ++ stringifyFields fs ++ "\x7d"

/-- Serialize an object's field list, comma-separated, in order. -/
def stringifyFields : List (String × JVal) → String
  | [] => ""
  | [(k, v)] => "\"" ++ k ++ "\":" ++ stringify v
  | (k, v) :: rest => "\"" ++ k ++ "\":" ++ stringify v ++ "," ++ stringifyFields rest

end

example : stringify (.jobj [("a", .jnum 1), ("b", .jstr "x")]) = "\x7b\"a\":1,\"b\":\"x\"\x7d" := by rfl

-- The standardized HA vacuum states (source: `HA_STATES`, MqttClient.js
-- lines 35-43). `ZONE_CLEANUP` aliases `CLEANING`.
namespace HA_STATES

def CLEANING : String := "cleaning"

def PAUSED : String := "paused"

def IDLE : String := "idle"

def RETURNING : String := "returning"

def DOCKED : String := "docked"

def ERROR : String := "error"

def ZONE_CLEANUP : String := CLEANING

end HA_STATES

/-- The native-state mapping table (source: `HA_STATE_MAPPINGS`, MqttClient.js
lines 46-60), as the association list of its entries in source order. -/
def HA_STATE_MAPPINGS : List (String × String) :=
  [("CHARGER_DISCONNECTED", HA_STATES.IDLE),
   ("IDLE", HA_STATES.IDLE),
   ("CLEANING", HA_STATES.CLEANING),
   ("MANUAL_MODE", HA_STATES.CLEANING),
   ("SPOT_CLEANING", HA_STATES.CLEANING),
   ("GOING_TO_TARGET", HA_STATES.CLEANING),
   ("ZONED_CLEANING", HA_STATES.ZONE_CLEANUP),
   ("RETURNING_HOME", HA_STATES.RETURNING),
   ("DOCKING", HA_STATES.RETURNING),
   ("CHARGING", HA_STATES.DOCKED),
   ("CHARGING_PROBLEM", HA_STATES.ERROR),
   ("ERROR", HA_STATES.ERROR),
   ("PAUSED", HA_STATES.PAUSED)]

/-- The JS property lookup `HA_STATE_MAPPINGS[code]`: `some` mapped state for a
key present in the table, `none` (JS `undefined`) otherwise. -/
def mapState (code : String) : Option String :=
  (HA_STATE_MAPPINGS.find? (fun p => p.1 == code)).map (fun p => p.2)

/-- The six standardized states of the spec's closed enum. -/
def standardStates : List String :=
  ["cleaning", "paused", "idle", "returning", "docked", "error"]

/-- C1: for every native state code present in the mapping table, `mapState`
returns exactly one result (it is a Lean function, hence deterministic and
total), and that result is one of the six standardized states. -/
theorem mapState_total_standard :
    ∀ code ∈ HA_STATE_MAPPINGS.map Prod.fst,
      ∃ s, mapState code = some s ∧ s ∈ standardStates := by
  intro code h
  simp only [HA_STATE_MAPPINGS, HA_STATES.IDLE, HA_STATES.CLEANING,
    HA_STATES.ZONE_CLEANUP, HA_STATES.RETURNING, HA_STATES.DOCKED,
    HA_STATES.ERROR, HA_STATES.PAUSED, List.map, List.mem_cons,
    List.not_mem_nil, or_false] at h
  rcases h with rfl | rfl | rfl | rfl | rfl | rfl | rfl | rfl | rfl | rfl | rfl | rfl | rfl <;>
    exact ⟨_, rfl, by decide⟩

/-- C1 witness: the theorem instantiated at the native code "ZONED_CLEANING". -/
theorem mapState_total_standard_witness :
    ∃ s, mapState "ZONED_CLEANING" = some s ∧ s ∈ standardStates :=
  mapState_total_standard "ZONED_CLEANING" (by decide)

/-! ## Connection manager (source: `connect`, MqttClient.js lines 152-201) -/

/-- The observable fields of the mqtt client handle the guard reads. -/
structure MqttHandle where
  connected : Bool
  reconnecting : Bool

/-- The guard of `connect()`: a new connect attempt is started iff
`!this.client || (this.client && this.client.connected === false &&
this.client.reconnecting === false)` (MqttClient.js line 153).  `none` models
the absence of a client handle. -/
def connect (client : Option MqttHandle) : Bool :=
  match client with
  | none => true
  | some h => !h.connected && !h.reconnecting

/-- C7: a connect attempt is started only when no handle exists or the handle
reports both disconnected and not reconnecting; hence a connected handle or an
in-flight reconnect never triggers a duplicate connect attempt (and so never
re-subscribes or re-publishes the discovery descriptor). -/
theorem connect_guard_idempotent :
    connect none = true ∧
    (∀ h : MqttHandle,
      (connect (some h) = true ↔ h.connected = false ∧ h.reconnecting = false) ∧
      (h.connected = true ∨ h.reconnecting = true → connect (some h) = false)) := by
  refine ⟨rfl, fun h => ⟨?_, ?_⟩⟩
  · cases hc : h.connected <;> cases hr : h.reconnecting <;> simp [connect, hc, hr]
  · rintro (hc | hr)
    · simp [connect, hc]
    · simp [connect, hr]

/-- C7 witness: a handle mid-reconnect (disconnected, reconnecting) does not
start a second connect attempt. -/
theorem connect_guard_idempotent_witness :
    connect (some { connected := false, reconnecting := true }) = false :=
  (connect_guard_idempotent.2 { connected := false, reconnecting := true }).2 (Or.inr rfl)

/-! ## State publisher (source: `updateStatusTopic`, MqttClient.js 299-312) -/

/-- The fan-speed name→power table (source: `FAN_SPEEDS`, lines 21-27). -/
def FAN_SPEEDS : List (String × Int) :=
  [("min", 38), ("medium", 60), ("high", 75), ("max", 100), ("mop", 105)]

/-- The status event payload: `battery` and `error_code` may be `undefined`. -/
structure StatusData where
  battery : Option Int
  state : String
  error_code : Option Int
  fan_power : Int

/-- `updateStatusTopic`: publishes the compact state document iff a client
exists, it is connected, and `battery` is defined.  Returns the published
JSON document, or `none` when no publish happens.  Fields whose JS value is
`undefined` (unmapped state, no exact fan-speed match) are omitted, as
`JSON.stringify` omits them; `error` is present only for a defined, nonzero
error code.  `errDesc` models the external
`Roborock.GET_ERROR_CODE_DESCRIPTION` table. -/
def updateStatusTopic (client : Option MqttHandle) (statusData : StatusData)
    (errDesc : Int → String) : Option JVal :=
  match client, statusData.battery with
  | some h, some battery =>
    if h.connected then
      some (.jobj
        ((match mapState statusData.state with
          | some s => [("state", JVal.jstr s)]
          | none => []) ++
         [("battery_level", JVal.jnum battery)] ++
         (match (FAN_SPEEDS.find? (fun p => p.2 == statusData.fan_power)) with
          | some p => [("fan_speed", JVal.jstr p.1)]
          | none => []) ++
         (match statusData.error_code with
          | some c => if c ≠ 0 then [("error", JVal.jstr (errDesc c))] else []
          | none => [])))
    else none
  | _, _ => none

/-- C8: a status event with `battery` undefined publishes nothing to the state
topic, and a publish happens only when the client is connected and `battery`
is defined. -/
theorem updateStatusTopic_requires_battery :
    ∀ (client : Option MqttHandle) (st : StatusData) (errDesc : Int → String),
      (st.battery = none → updateStatusTopic client st errDesc = none) ∧
      (∀ r, updateStatusTopic client st errDesc = some r →
        (∃ h, client = some h ∧ h.connected = true) ∧ st.battery ≠ none) := by
  intro client st errDesc
  constructor
  · intro hb
    cases client with
    | none => rfl
    | some h => simp [updateStatusTopic, hb]
  · intro r hr
    cases client with
    | none => simp [updateStatusTopic] at hr
    | some h =>
      cases hb : st.battery with
      | none => simp [updateStatusTopic, hb] at hr
      | some b =>
        simp only [updateStatusTopic, hb] at hr
        rcases hc : h.connected with _ | _
        · simp [hc] at hr
        · exact ⟨⟨h, rfl, hc⟩, by simp [hb]⟩

/-- C8 witness: a concrete status event with `battery` undefined on a connected
client yields no publish. -/
theorem updateStatusTopic_requires_battery_witness :
    updateStatusTopic (some { connected := true, reconnecting := false })
      { battery := none, state := "CLEANING", error_code := some 0, fan_power := 60 }
      (fun _ => "") = none :=
  (updateStatusTopic_requires_battery
    (some { connected := true, reconnecting := false })
    { battery := none, state := "CLEANING", error_code := some 0, fan_power := 60 }
    (fun _ => "")).1 rfl

/-! ## Command dispatcher (source: `handleCommand`, MqttClient.js 324-358) -/

-- The fixed command verbs (source: `MQTT_COMMANDS`, lines 6-13).
namespace MQTT_COMMANDS

def START : String := "start"

def RETURN_TO_BASE : String := "return_to_base"

def STOP : String := "stop"

def CLEAN_SPOT : String := "clean_spot"

def LOCATE : String := "locate"

def PAUSE : String := "pause"

end MQTT_COMMANDS

/-- The asynchronous device operations `handleCommand` can invoke. -/
inductive DeviceCall where
  | getCurrentStatus
  | resumeCleaningZone
  | startCleaning
  | stopCleaning
  | driveHome
  | spotClean
  | findRobot
  | pauseCleaning
  deriving DecidableEq

/-- The fields of `getCurrentStatus()`'s resolution that `handleCommand`
reads. -/
structure CurrentStatus where
  in_cleaning : Int
  state : String

/-- `handleCommand`, as the ordered list of device calls it issues.
`status` is the outcome of the `getCurrentStatus()` promise consulted by
"start" (rejection is logged, no further call); `stopResult` is the outcome of
the `stopCleaning()` promise that "return_to_base" chains `driveHome` on:
`driveHome` runs only in the fulfillment callback, so a rejected stop (which
has no rejection handler) issues no `driveHome`.  An unknown verb matches no
case and issues nothing. -/
def handleCommand (command : String) (status : Except Unit CurrentStatus)
    (stopResult : Except Unit Unit) : List DeviceCall :=
  if command == MQTT_COMMANDS.START then
    DeviceCall.getCurrentStatus ::
      (match status with
       | .ok res =>
         if res.in_cleaning == 2 && (mapState res.state == some HA_STATES.PAUSED) then
           [DeviceCall.resumeCleaningZone]
         else
           [DeviceCall.startCleaning]
       | .error _ => [])
  else if command == MQTT_COMMANDS.STOP then
    [DeviceCall.stopCleaning]
  else if command == MQTT_COMMANDS.RETURN_TO_BASE then
    match stopResult with
    | .ok _ => [DeviceCall.stopCleaning, DeviceCall.driveHome]
    | .error _ => [DeviceCall.stopCleaning]
  else if command == MQTT_COMMANDS.CLEAN_SPOT then
    [DeviceCall.spotClean]
  else if command == MQTT_COMMANDS.LOCATE then
    [DeviceCall.findRobot]
  else if command == MQTT_COMMANDS.PAUSE then
    [DeviceCall.pauseCleaning]
  else
    []

/-- C5: "start" first queries the current status; when the reported status has
`in_cleaning == 2` and its mapped state is `paused` the dispatcher issues a
resume-zone call, and for every other reported status it issues a fresh start. -/
theorem handleCommand_start_resume_iff_paused_zone :
    ∀ (res : CurrentStatus) (stopR : Except Unit Unit),
      (handleCommand MQTT_COMMANDS.START (.ok res) stopR).head? =
        some DeviceCall.getCurrentStatus ∧
      (handleCommand MQTT_COMMANDS.START (.ok res) stopR =
          [DeviceCall.getCurrentStatus, DeviceCall.resumeCleaningZone] ↔
        res.in_cleaning = 2 ∧ mapState res.state = some HA_STATES.PAUSED) ∧
      (¬(res.in_cleaning = 2 ∧ mapState res.state = some HA_STATES.PAUSED) →
        handleCommand MQTT_COMMANDS.START (.ok res) stopR =
          [DeviceCall.getCurrentStatus, DeviceCall.startCleaning]) := by
  intro res stopR
  by_cases h : res.in_cleaning = 2 ∧ mapState res.state = some HA_STATES.PAUSED
  · refine ⟨?_, ?_, ?_⟩
    · simp [handleCommand]
    · simp [handleCommand, h.1, h.2]
    · intro hn
      exact absurd h hn
  · have hb : (res.in_cleaning == 2 && (mapState res.state == some HA_STATES.PAUSED)) = false := by
      rcases not_and_or.mp h with h1 | h1
      · simp [beq_iff_eq, h1]
      · simp [beq_iff_eq, h1]
    refine ⟨?_, ?_, ?_⟩
    · simp [handleCommand]
    · simp only [handleCommand, if_pos (by rfl : (MQTT_COMMANDS.START == MQTT_COMMANDS.START) = true), hb]
      constructor
      · intro hEq
        simp at hEq
      · intro hcontr
        exact absurd hcontr h
    · intro _
      simp [handleCommand, hb]

/-- C5 witness: a status reporting `in_cleaning = 2` in native state "PAUSED"
yields exactly the resume-zone call after the status query. -/
theorem handleCommand_start_resume_witness :
    handleCommand MQTT_COMMANDS.START (.ok { in_cleaning := 2, state := "PAUSED" }) (.ok ()) =
      [DeviceCall.getCurrentStatus, DeviceCall.resumeCleaningZone] :=
  (handleCommand_start_resume_iff_paused_zone
    { in_cleaning := 2, state := "PAUSED" } (.ok ())).2.1.mpr ⟨rfl, rfl⟩

/-- C6: "return_to_base" issues `stopCleaning` first in every case; `driveHome`
is issued only when the stop succeeded, and then strictly after the stop. -/
theorem handleCommand_return_to_base_order :
    ∀ (status : Except Unit CurrentStatus) (stopR : Except Unit Unit),
      (handleCommand MQTT_COMMANDS.RETURN_TO_BASE status stopR).head? =
        some DeviceCall.stopCleaning ∧
      (DeviceCall.driveHome ∈ handleCommand MQTT_COMMANDS.RETURN_TO_BASE status stopR →
        stopR = .ok () ∧
        handleCommand MQTT_COMMANDS.RETURN_TO_BASE status stopR =
          [DeviceCall.stopCleaning, DeviceCall.driveHome]) ∧
      (∀ e, stopR = .error e →
        handleCommand MQTT_COMMANDS.RETURN_TO_BASE status stopR =
          [DeviceCall.stopCleaning]) := by
  intro status stopR
  cases stopR with
  | ok u =>
    refine ⟨rfl, fun _ => ⟨rfl, rfl⟩, fun e he => by simp at he⟩
  | error e =>
    refine ⟨rfl, fun hmem => ?_, fun e2 he => rfl⟩
    have h2 : DeviceCall.driveHome ∈ [DeviceCall.stopCleaning] := hmem
    simp at h2

/-- C6 witness: with a fulfilled stop, the call sequence is exactly stop then
drive-home; the theorem's membership hypothesis is discharged concretely. -/
theorem handleCommand_return_to_base_order_witness :
    (.ok () : Except Unit Unit) = .ok () ∧
    handleCommand MQTT_COMMANDS.RETURN_TO_BASE (.error ()) (.ok ()) =
      [DeviceCall.stopCleaning, DeviceCall.driveHome] :=
  (handleCommand_return_to_base_order (.error ()) (.ok ())).2.1 (by decide)

/-! ## Custom commands (source: `handleCustomCommand`, MqttClient.js 366-426) -/

/-- A JavaScript primitive value as found in a parsed `zone_ids` array: JSON
strings parse to strings and JSON numbers to numbers.  `==` on this type is
JS strict equality (`Array.prototype.includes` uses SameValueZero): a string
never equals a number. -/
inductive JsVal where
  | str : String → JsVal
  | num : Int → JsVal
  deriving DecidableEq

/-- A configured zone from `configuration.getZones()`: a display name and a
numeric zone id. -/
structure Zone where
  name : String
  id : Int

/-- The `zoned_cleanup` branch of `handleCustomCommand` (lines 387-401):
given the configured zone table and the parsed `zone_ids` field (`none` when
absent or not an array), returns `some ids` when
`startCleaningZonesById(ids)` is called, `none` when the request is only
logged.  Matching keeps every configured zone whose `name` or `id` occurs
(strict equality) in `zone_ids`, and submits those zones' ids. -/
def zonedCleanup (configuredZones : List Zone) (zone_ids : Option (List JsVal)) :
    Option (List Int) :=
  match zone_ids with
  | some zones =>
    if zones.length ≠ 0 then
      some ((configuredZones.filter (fun zone =>
        zones.contains (JsVal.str zone.name) || zones.contains (JsVal.num zone.id))).map
          (fun zone => zone.id))
    else
      none
  | none => none

/-- C4 counterexample: against the zone table [(Kitchen, 3), (Garage, 7)], the
payload `zone_ids = ["Kitchen", "7"]` (both JSON strings) submits only `[3]`:
the string "7" does not strictly equal the numeric id 7, so the claimed
request for `[3, 7]` does not happen. -/
theorem zonedCleanup_string_id_no_match :
    zonedCleanup [{ name := "Kitchen", id := 3 }, { name := "Garage", id := 7 }]
        (some [JsVal.str "Kitchen", JsVal.str "7"]) = some [3] ∧
    zonedCleanup [{ name := "Kitchen", id := 3 }, { name := "Garage", id := 7 }]
        (some [JsVal.str "Kitchen", JsVal.str "7"]) ≠ some [3, 7] := by
  constructor
  · rfl
  · decide

/-- C4 amended: each `zone_ids` entry selects the configured zones whose name
or id it strictly equals, and the matched ids go out as one request — so the
payload `["Kitchen", 7]` (with a numeric 7) yields the request `[3, 7]`,
while `["Kitchen", "7"]` yields `[3]` because the string "7" matches no zone;
in general every submitted id belongs to a configured zone matched by name or
id. -/
theorem zonedCleanup_strict_matching :
    zonedCleanup [{ name := "Kitchen", id := 3 }, { name := "Garage", id := 7 }]
        (some [JsVal.str "Kitchen", JsVal.num 7]) = some [3, 7] ∧
    zonedCleanup [{ name := "Kitchen", id := 3 }, { name := "Garage", id := 7 }]
        (some [JsVal.str "Kitchen", JsVal.str "7"]) = some [3] ∧
    (∀ (cfg : List Zone) (zones : List JsVal) (ids : List Int) (z : Int),
      zonedCleanup cfg (some zones) = some ids → z ∈ ids →
      ∃ zone, zone ∈ cfg ∧ z = zone.id ∧
        (zones.contains (JsVal.str zone.name) = true ∨
         zones.contains (JsVal.num zone.id) = true)) := by
  refine ⟨rfl, rfl, ?_⟩
  intro cfg zones ids z hids hz
  simp only [zonedCleanup] at hids
  by_cases hlen : zones.length ≠ 0
  · rw [if_pos hlen] at hids
    cases hids
    rcases List.mem_map.mp hz with ⟨zone, hzone, hzid⟩
    rcases List.mem_filter.mp hzone with ⟨hmem, hcond⟩
    cases hname : zones.contains (JsVal.str zone.name) with
    | true => exact ⟨zone, hmem, hzid.symm, Or.inl hname⟩
    | false =>
      have hid : zones.contains (JsVal.num zone.id) = true := by
        rw [hname] at hcond
        simpa using hcond
      exact ⟨zone, hmem, hzid.symm, Or.inr hid⟩
  · rw [if_neg hlen] at hids
    exact absurd hids (by simp)

/-- C4 amended witness: the soundness clause applied to the concrete corrected
example — the submitted id 7 comes from the Garage zone, matched by id. -/
theorem zonedCleanup_strict_matching_witness :
    ∃ zone : Zone,
      zone ∈ [({ name := "Kitchen", id := 3 } : Zone), { name := "Garage", id := 7 }] ∧
      (7 : Int) = zone.id ∧
      (([JsVal.str "Kitchen", JsVal.num 7].contains (JsVal.str zone.name)) = true ∨
       ([JsVal.str "Kitchen", JsVal.num 7].contains (JsVal.num zone.id)) = true) :=
  zonedCleanup_strict_matching.2.2
    [{ name := "Kitchen", id := 3 }, { name := "Garage", id := 7 }]
    [JsVal.str "Kitchen", JsVal.num 7] [3, 7] 7 rfl (by decide)

/-! ## Order-insensitive structural equality (modelled from the spec's words)

The spec (§4.5 step 5) says snapshots are compared "by full structural
equality (order-insensitive on fields)".  The source compares
`JSON.stringify(response) !== JSON.stringify(this.last_attributes)` — string
equality of the serializations.  `structuralEq` below formalises the spec's
words so the two comparisons can be confronted. -/

mutual

/-- Modelled from the spec: full structural equality of two JSON values,
insensitive to the order of object fields (two objects are equal when they
have the same number of fields and every field of the first occurs, with a
structurally equal value, in the second). -/
def structuralEq : JVal → JVal → Bool
  | .jnum a, .jnum b => a == b
  | .jstr a, .jstr b => a == b
  | .jbool a, .jbool b => a == b
  | .jobj fs, .jobj gs => fs.length == gs.length && fieldsIncluded fs gs
  | _, _ => false

/-- Every field of the first list occurs, with a structurally equal value, in
the second list. -/
def fieldsIncluded : List (String × JVal) → List (String × JVal) → Bool
  | [], _ => true
  | (k, v) :: rest, gs => lookupEq k v gs && fieldsIncluded rest gs

/-- The second list has a field named `k` whose value is structurally equal to
`v`. -/
def lookupEq : String → JVal → List (String × JVal) → Bool
  | _, _, [] => false
  | k, v, (k2, v2) :: rest => if k == k2 then structuralEq v v2 else lookupEq k v rest

end

/-! ## Attribute aggregator (source: `updateAttributesTopic`, lines 221-290) -/

/-- Observable events of one aggregation cycle, in the order they happen. -/
inductive Ev where
  | fetchConsumable
  | fetchSummary
  | fetchRecord
  | assemble
  | publishAttributes (payload : String)
  | schedule
  | recordSettled (ok : Bool)
  | cacheUpdate
  | logError
  deriving DecidableEq

/-- A JS number arising in the aggregator's arithmetic, modelled as the exact
fraction `num / den` (`den` positive by construction): the source only ever
divides device integers by positive integer constants, subtracts from
integer constants, clamps at zero and rounds with `toFixed(1)`, so exact
fractions represent every intermediate value. -/
structure JsNumber where
  num : Int
  den : Int

/-- Embed an integer device reading. -/
def JsNumber.ofInt (n : Int) : JsNumber :=
  { num := n, den := 1 }

/-- JS `a / k` for a positive integer constant `k`. -/
def JsNumber.divC (a : JsNumber) (k : Int) : JsNumber :=
  { num := a.num, den := a.den * k }

/-- JS `c - a` for an integer constant `c`. -/
def JsNumber.subFrom (c : Int) (a : JsNumber) : JsNumber :=
  { num := c * a.den - a.num, den := a.den }

/-- JS `Math.max(0, a)`. -/
def JsNumber.maxZero (a : JsNumber) : JsNumber :=
  if a.num < 0 then JsNumber.ofInt 0 else a

/-- JS `Number.prototype.toFixed(1)` on the exact value `q = num / den`:
round half-up to one decimal place and render as "w.d". -/
def toFixed1 (q : JsNumber) : String :=
  let n : Int := Int.fdiv (q.num * 20 + q.den) (q.den * 2)
  toString (Int.fdiv n 10) ++ "." ++ toString (Int.emod n 10)

/-- Resolution of `getConsumableStatus()` (`res`): work/dirty times in
seconds (integer device readings). -/
structure ConsumableRes where
  main_brush_work_time : Int
  side_brush_work_time : Int
  filter_work_time : Int
  sensor_dirty_time : Int

/-- Resolution of `getCleanSummary()` (`res2`): total seconds, total square
millimetres, run count, and the run-id history list. -/
structure CleanSummary where
  totalTime : Int
  totalArea : Int
  count : Int
  last_runs : List Int

/-- The first row (`data[0]`) of a `getCleanRecord` resolution. -/
structure CleanRecordData where
  startTime : Int
  endTime : Int
  duration : Int
  area : Int
  errorCode : Int
  finishedFlag : Int

/-- The `last_run_stats` object built at lines 240-248 from a clean-record row;
`errDesc` models the external `Roborock.GET_ERROR_CODE_DESCRIPTION` table. -/
def lastRunStatsJ (d : CleanRecordData) (errDesc : Int → String) : JVal :=
  .jobj [("startTime", .jnum (d.startTime * 1000)),
         ("endTime", .jnum (d.endTime * 1000)),
         ("duration", .jnum d.duration),
         ("area", .jstr (toFixed1 ((JsNumber.ofInt d.area).divC 1000000))),
         ("errorCode", .jnum d.errorCode),
         ("errorDescription", .jstr (errDesc d.errorCode)),
         ("finishedFlag", .jbool (d.finishedFlag == 1))]

/-- The aggregator's mutable fields on the `MqttClient` instance.  `pending`
counts currently pending scheduled cycles (`attributesUpdateTimeout`). -/
structure AggState where
  pending : Nat
  last_ha_state : String
  last_state : String
  last_run_stats : Option JVal
  last_attributes : JVal

/-- One cycle's environment: connection state, the outcomes the three device
promises settle with, the synchronous `getZoneCleaningStatus()` result
(`none` for a falsy value), and the external error-description table. -/
structure CycleEnv where
  connected : Bool
  consumable : Except Unit ConsumableRes
  summary : Except Unit CleanSummary
  record : Except Unit CleanRecordData
  zoneStatus : Option JVal
  errDesc : Int → String

/-- The attributes snapshot assembled at lines 233-261, with fields in the
JS insertion order.  `last_run_stats` is whatever is cached at assembly time
(`\x7b\x7d` when nothing ever was), NOT the outcome of this cycle's record
fetch; `zoneStatus` is appended only when truthy. -/
def assembleResponse (res : ConsumableRes) (res2 : CleanSummary)
    (last_run_stats : Option JVal) (last_ha_state last_state : String)
    (zoneStatus : Option JVal) : JVal :=
  .jobj ([("cleanTime", JVal.jstr (toFixed1 (((JsNumber.ofInt res2.totalTime).divC 60).divC 60))),
          ("cleanArea", JVal.jstr (toFixed1 ((JsNumber.ofInt res2.totalArea).divC 1000000))),
          ("cleanCount", JVal.jnum res2.count),
          ("last_run_stats", last_run_stats.getD (JVal.jobj [])),
          ("mainBrush", JVal.jstr (toFixed1
            (JsNumber.maxZero (JsNumber.subFrom 300 (((JsNumber.ofInt res.main_brush_work_time).divC 60).divC 60))))),
          ("sideBrush", JVal.jstr (toFixed1
            (JsNumber.maxZero (JsNumber.subFrom 200 (((JsNumber.ofInt res.side_brush_work_time).divC 60).divC 60))))),
          ("filter", JVal.jstr (toFixed1
            (JsNumber.maxZero (JsNumber.subFrom 150 (((JsNumber.ofInt res.filter_work_time).divC 60).divC 60))))),
          ("sensor", JVal.jstr (toFixed1
            (JsNumber.maxZero (JsNumber.subFrom 30 (((JsNumber.ofInt res.sensor_dirty_time).divC 60).divC 60))))),
          ("state", JVal.jstr last_ha_state),
          ("valetudo_state", JVal.jstr last_state)] ++
         (match zoneStatus with
          | some z => [("zoneStatus", z)]
          | none => []))

/-- The publish guard at line 263:
`JSON.stringify(response) !== JSON.stringify(this.last_attributes)`. -/
def shouldPublish (response last : JVal) : Bool :=
  stringify response != stringify last

/-- True for a publish event, whatever its payload. -/
def isPublishEv : Ev → Bool
  | .publishAttributes _ => true
  | _ => false

/-- True for the `setTimeout` rescheduling event. -/
def isScheduleEv : Ev → Bool
  | .schedule => true
  | _ => false

/-- True for the snapshot-assembly event. -/
def isAssembleEv : Ev → Bool
  | .assemble => true
  | _ => false

/-- True for the settlement of the `getCleanRecord` promise, either way. -/
def isRecordSettledEv : Ev → Bool
  | .recordSettled _ => true
  | _ => false

/-- One run of `updateAttributesTopic` (lines 221-290) under the sequential
execution the spec describes (one in-flight cycle; the cycle's promises
settle in chain order).  Returns the cycle's event trace and the state after
the cycle, including the late microtask of the fire-and-forget
`getCleanRecord(...).then(...).catch(...)` chain (its settlement can only run
after the cycle's synchronous tail, hence after `assemble`, the publish
decision and `setTimeout`).  Entry first does
`clearTimeout(this.attributesUpdateTimeout)`, removing a pending scheduled
cycle if one exists; every exit path installs exactly one new timeout. -/
def updateAttributesTopic (env : CycleEnv) (s : AggState) : List Ev × AggState :=
  let s0 : AggState := { s with pending := s.pending - 1 }
  if env.connected then
    match env.consumable with
    | .error _ =>
      ([Ev.fetchConsumable, Ev.logError, Ev.schedule], { s0 with pending := s0.pending + 1 })
    | .ok res =>
      match env.summary with
      | .error _ =>
        ([Ev.fetchConsumable, Ev.fetchSummary, Ev.logError, Ev.schedule],
         { s0 with pending := s0.pending + 1 })
      | .ok res2 =>
        let response := assembleResponse res res2 s0.last_run_stats s0.last_ha_state
          s0.last_state env.zoneStatus
        let doPub := shouldPublish response s0.last_attributes
        let s1 := if doPub then { s0 with last_attributes := response } else s0
        let pubEvs := if doPub then [Ev.publishAttributes (stringify response)] else []
        if res2.last_runs.length > 0 then
          match env.record with
          | .ok d =>
            ([Ev.fetchConsumable, Ev.fetchSummary, Ev.fetchRecord, Ev.assemble] ++ pubEvs ++
               [Ev.schedule, Ev.recordSettled true, Ev.cacheUpdate],
             { s1 with
                 pending := s1.pending + 1,
                 last_run_stats := some (lastRunStatsJ d env.errDesc) })
          | .error _ =>
            ([Ev.fetchConsumable, Ev.fetchSummary, Ev.fetchRecord, Ev.assemble] ++ pubEvs ++
               [Ev.schedule, Ev.recordSettled false, Ev.logError],
             { s1 with pending := s1.pending + 1 })
        else
          ([Ev.fetchConsumable, Ev.fetchSummary, Ev.assemble] ++ pubEvs ++ [Ev.schedule],
           { s1 with pending := s1.pending + 1 })
  else
    ([Ev.schedule], { s0 with pending := s0.pending + 1 })

/-- Characterization of the fully successful cycle when the run history is
empty: steps 1 and 2 settle in chain order, the snapshot is assembled from
the cached fields, the publish is guarded by serialization inequality, and
exactly one reschedule happens. -/
theorem updateAttributesTopic_success_norecord (env : CycleEnv) (s : AggState)
    (c : ConsumableRes) (m : CleanSummary)
    (hc : env.connected = true) (h1 : env.consumable = .ok c)
    (h2 : env.summary = .ok m) (h3 : m.last_runs = []) :
    updateAttributesTopic env s =
      ([Ev.fetchConsumable, Ev.fetchSummary, Ev.assemble] ++
        (if shouldPublish (assembleResponse c m s.last_run_stats s.last_ha_state
              s.last_state env.zoneStatus) s.last_attributes then
          [Ev.publishAttributes (stringify (assembleResponse c m s.last_run_stats
            s.last_ha_state s.last_state env.zoneStatus))]
        else []) ++ [Ev.schedule],
       { pending := s.pending - 1 + 1,
         last_ha_state := s.last_ha_state,
         last_state := s.last_state,
         last_run_stats := s.last_run_stats,
         last_attributes :=
           if shouldPublish (assembleResponse c m s.last_run_stats s.last_ha_state
                s.last_state env.zoneStatus) s.last_attributes then
             assembleResponse c m s.last_run_stats s.last_ha_state s.last_state env.zoneStatus
           else s.last_attributes }) := by
  unfold updateAttributesTopic
  rw [hc, h1, h2]
  simp only [h3, List.length_nil, gt_iff_lt, lt_self_iff_false, if_true, if_false, ite_false]
  by_cases hpub : shouldPublish (assembleResponse c m s.last_run_stats s.last_ha_state
      s.last_state env.zoneStatus) s.last_attributes = true
  · simp [hpub]
  · simp only [Bool.not_eq_true] at hpub
    simp [hpub]

/-- C2: whatever the cycle's outcome — success, consumable-fetch failure,
clean-summary-fetch failure, or no active connection — the cycle emits
exactly one `setTimeout` rescheduling event, and starting from at most one
pending scheduled cycle (the entry `clearTimeout` removes it) it leaves
exactly one pending scheduled cycle. -/
theorem updateAttributesTopic_reschedules_exactly_once :
    ∀ (env : CycleEnv) (s : AggState), s.pending ≤ 1 →
      (updateAttributesTopic env s).1.countP isScheduleEv = 1 ∧
      (updateAttributesTopic env s).2.pending = 1 := by
  intro env s hp
  have hp1 : s.pending - 1 + 1 = 1 := by omega
  unfold updateAttributesTopic
  cases hc : env.connected
  · simpa [isScheduleEv] using hp1
  · cases h1 : env.consumable with
    | error e => simpa [isScheduleEv] using hp1
    | ok c =>
      cases h2 : env.summary with
      | error e => simpa [isScheduleEv] using hp1
      | ok m =>
        by_cases h3 : m.last_runs.length > 0
        · simp only [h3, if_true, ite_true]
          cases h4 : env.record with
          | ok d =>
            by_cases hpub : shouldPublish (assembleResponse c m
                ({ s with pending := s.pending - 1 } : AggState).last_run_stats
                ({ s with pending := s.pending - 1 } : AggState).last_ha_state
                ({ s with pending := s.pending - 1 } : AggState).last_state
                env.zoneStatus)
                ({ s with pending := s.pending - 1 } : AggState).last_attributes = true
            · simpa [hpub, isScheduleEv] using hp1
            · simp only [Bool.not_eq_true] at hpub
              simpa [hpub, isScheduleEv] using hp1
          | error e =>
            by_cases hpub : shouldPublish (assembleResponse c m
                ({ s with pending := s.pending - 1 } : AggState).last_run_stats
                ({ s with pending := s.pending - 1 } : AggState).last_ha_state
                ({ s with pending := s.pending - 1 } : AggState).last_state
                env.zoneStatus)
                ({ s with pending := s.pending - 1 } : AggState).last_attributes = true
            · simpa [hpub, isScheduleEv] using hp1
            · simp only [Bool.not_eq_true] at hpub
              simpa [hpub, isScheduleEv] using hp1
        · simp only [h3, if_false, ite_false]
          by_cases hpub : shouldPublish (assembleResponse c m
              ({ s with pending := s.pending - 1 } : AggState).last_run_stats
              ({ s with pending := s.pending - 1 } : AggState).last_ha_state
              ({ s with pending := s.pending - 1 } : AggState).last_state
              env.zoneStatus)
              ({ s with pending := s.pending - 1 } : AggState).last_attributes = true
          · simpa [hpub, isScheduleEv] using hp1
          · simp only [Bool.not_eq_true] at hpub
            simpa [hpub, isScheduleEv] using hp1

/-- A consumable-status resolution with all counters at zero. -/
def consumableZero : ConsumableRes :=
  ⟨0, 0, 0, 0⟩

/-- A concrete cycle environment whose clean-summary fetch fails. -/
def envSummaryFail : CycleEnv :=
  ⟨true, .ok consumableZero, .error (), .error (), none, fun _ => ""⟩

/-- The aggregator state right after construction (lines 131-133), but with
one scheduled cycle pending. -/
def stInit1 : AggState :=
  ⟨1, HA_STATES.IDLE, "UNKNOWN", none, .jobj []⟩

/-- C2 witness: a concrete cycle whose clean-summary fetch fails, entered with
one pending scheduled cycle, reschedules exactly once. -/
theorem updateAttributesTopic_reschedules_exactly_once_witness :
    (updateAttributesTopic envSummaryFail stInit1).1.countP isScheduleEv = 1 ∧
    (updateAttributesTopic envSummaryFail stInit1).2.pending = 1 :=
  updateAttributesTopic_reschedules_exactly_once envSummaryFail stInit1 (by decide)

/-- A clean summary with empty run history. -/
def summaryEmpty : CleanSummary :=
  ⟨0, 0, 0, []⟩

/-- A concrete fully-successful cycle environment with empty run history. -/
def envSuccessNoRuns : CycleEnv :=
  ⟨true, .ok consumableZero, .ok summaryEmpty, .error (), none, fun _ => ""⟩

/-- The snapshot `envSuccessNoRuns` assembles from the initial cached fields. -/
def assembled0 : JVal :=
  assembleResponse consumableZero summaryEmpty none HA_STATES.IDLE "UNKNOWN" none

/-- `assembled0` with its first two fields transposed: the same fields, hence
structurally equal order-insensitively, but a different serialization. -/
def permuted0 : JVal :=
  .jobj [("cleanArea", .jstr "0.0"), ("cleanTime", .jstr "0.0"), ("cleanCount", .jnum 0),
         ("last_run_stats", .jobj []), ("mainBrush", .jstr "300.0"),
         ("sideBrush", .jstr "200.0"), ("filter", .jstr "150.0"), ("sensor", .jstr "30.0"),
         ("state", .jstr "idle"), ("valetudo_state", .jstr "UNKNOWN")]

/-- An aggregator state whose last-published snapshot is `permuted0`. -/
def stPerm : AggState :=
  ⟨1, HA_STATES.IDLE, "UNKNOWN", none, permuted0⟩

set_option maxRecDepth 10000 in
/-- C3 counterexample: the assembled snapshot `assembled0` and the previously
published `permuted0` are structurally equal up to field order, yet the
comparison at line 263 (`JSON.stringify` inequality) judges them different
and the cycle publishes — the claimed order-insensitive comparison would
have skipped the publish. -/
theorem snapshot_compare_order_sensitive :
    structuralEq assembled0 permuted0 = true ∧
    shouldPublish assembled0 permuted0 = true ∧
    (updateAttributesTopic envSuccessNoRuns stPerm).1.countP isPublishEv = 1 := by
  refine ⟨?_, by decide, by decide⟩
  have h : assembled0 = JVal.jobj
      [("cleanTime", .jstr "0.0"), ("cleanArea", .jstr "0.0"), ("cleanCount", .jnum 0),
       ("last_run_stats", .jobj []), ("mainBrush", .jstr "300.0"),
       ("sideBrush", .jstr "200.0"), ("filter", .jstr "150.0"), ("sensor", .jstr "30.0"),
       ("state", .jstr "idle"), ("valetudo_state", .jstr "UNKNOWN")] := by rfl
  rw [h]
  simp [permuted0, structuralEq, fieldsIncluded, lookupEq]

/-- C3 amended: the snapshot comparison is equality of the two snapshots'
JSON serializations (sensitive to field order); when the serializations are
equal the publish is skipped, when they differ the snapshot is published and
replaces the stored last-published snapshot — so a cycle that publishes is
followed, if the next cycle assembles the identical snapshot, by a cycle
that publishes nothing. -/
theorem attributes_publish_stringify_guard :
    (∀ r l : JVal, shouldPublish r l = false ↔ stringify r = stringify l) ∧
    (∀ (env : CycleEnv) (s : AggState) (c : ConsumableRes) (m : CleanSummary),
      env.connected = true → env.consumable = .ok c → env.summary = .ok m →
      m.last_runs = [] →
      shouldPublish (assembleResponse c m s.last_run_stats s.last_ha_state s.last_state
          env.zoneStatus) s.last_attributes = true →
      (updateAttributesTopic env s).1.countP isPublishEv = 1 ∧
      stringify (updateAttributesTopic env s).2.last_attributes =
        stringify (assembleResponse c m s.last_run_stats s.last_ha_state s.last_state
          env.zoneStatus) ∧
      (updateAttributesTopic env (updateAttributesTopic env s).2).1.countP isPublishEv = 0) := by
  constructor
  · intro r l
    simp [shouldPublish]
  · intro env s c m hc h1 h2 h3 hpub
    have H := updateAttributesTopic_success_norecord env s c m hc h1 h2 h3
    rw [H]
    simp only [hpub, if_true, ite_true]
    refine ⟨by simp [isPublishEv, List.countP_append, List.countP_cons], by trivial, ?_⟩
    have H2 := updateAttributesTopic_success_norecord env
      { pending := s.pending - 1 + 1, last_ha_state := s.last_ha_state,
        last_state := s.last_state, last_run_stats := s.last_run_stats,
        last_attributes := assembleResponse c m s.last_run_stats s.last_ha_state
          s.last_state env.zoneStatus } c m hc h1 h2 h3
    rw [H2]
    have hskip : shouldPublish (assembleResponse c m s.last_run_stats s.last_ha_state
        s.last_state env.zoneStatus)
        (assembleResponse c m s.last_run_stats s.last_ha_state s.last_state
          env.zoneStatus) = false := by
      simp [shouldPublish]
    simp [hskip, isPublishEv, List.countP_append, List.countP_cons]

set_option maxRecDepth 10000 in
/-- C3 amended witness: the concrete cycle `envSuccessNoRuns` from the initial
state publishes once, stores the serialized snapshot, and an identical second
cycle publishes nothing. -/
theorem attributes_publish_stringify_guard_witness :
    (updateAttributesTopic envSuccessNoRuns stInit1).1.countP isPublishEv = 1 ∧
    stringify (updateAttributesTopic envSuccessNoRuns stInit1).2.last_attributes =
      stringify (assembleResponse consumableZero summaryEmpty stInit1.last_run_stats
        stInit1.last_ha_state stInit1.last_state envSuccessNoRuns.zoneStatus) ∧
    (updateAttributesTopic envSuccessNoRuns
      (updateAttributesTopic envSuccessNoRuns stInit1).2).1.countP isPublishEv = 0 :=
  attributes_publish_stringify_guard.2 envSuccessNoRuns stInit1 consumableZero summaryEmpty
    rfl rfl rfl rfl (by decide)

/-- Characterization of the fully successful cycle when the run history is
non-empty: the record fetch is initiated, the snapshot is assembled from the
PRE-cycle cache, and the record promise settles only after the reschedule,
updating the cache on success and leaving it untouched on failure. -/
theorem updateAttributesTopic_success_record (env : CycleEnv) (s : AggState)
    (c : ConsumableRes) (m : CleanSummary)
    (hc : env.connected = true) (h1 : env.consumable = .ok c)
    (h2 : env.summary = .ok m) (h3 : m.last_runs.length > 0) :
    updateAttributesTopic env s =
      ([Ev.fetchConsumable, Ev.fetchSummary, Ev.fetchRecord, Ev.assemble] ++
        (if shouldPublish (assembleResponse c m s.last_run_stats s.last_ha_state
              s.last_state env.zoneStatus) s.last_attributes then
          [Ev.publishAttributes (stringify (assembleResponse c m s.last_run_stats
            s.last_ha_state s.last_state env.zoneStatus))]
        else []) ++
        (match env.record with
         | .ok _ => [Ev.schedule, Ev.recordSettled true, Ev.cacheUpdate]
         | .error _ => [Ev.schedule, Ev.recordSettled false, Ev.logError]),
       { pending := s.pending - 1 + 1,
         last_ha_state := s.last_ha_state,
         last_state := s.last_state,
         last_run_stats :=
           (match env.record with
            | .ok d => some (lastRunStatsJ d env.errDesc)
            | .error _ => s.last_run_stats),
         last_attributes :=
           if shouldPublish (assembleResponse c m s.last_run_stats s.last_ha_state
                s.last_state env.zoneStatus) s.last_attributes then
             assembleResponse c m s.last_run_stats s.last_ha_state s.last_state env.zoneStatus
           else s.last_attributes }) := by
  unfold updateAttributesTopic
  rw [hc, h1, h2]
  simp only [h3, if_true, ite_true]
  cases h4 : env.record with
  | ok d =>
    by_cases hpub : shouldPublish (assembleResponse c m s.last_run_stats s.last_ha_state
        s.last_state env.zoneStatus) s.last_attributes = true
    · simp [hpub]
    · simp only [Bool.not_eq_true] at hpub
      simp [hpub]
  | error e =>
    by_cases hpub : shouldPublish (assembleResponse c m s.last_run_stats s.last_ha_state
        s.last_state env.zoneStatus) s.last_attributes = true
    · simp [hpub]
    · simp only [Bool.not_eq_true] at hpub
      simp [hpub]

/-- An old cached last-run record (from some prior cycle). -/
def oldRunJ : JVal :=
  lastRunStatsJ ⟨1, 2, 3, 1000000, 0, 1⟩ (fun _ => "")

/-- The detail row this cycle's record fetch resolves with. -/
def recordNew : CleanRecordData :=
  ⟨100, 200, 100, 1500000, 0, 1⟩

/-- A clean summary whose run history is non-empty. -/
def summaryRuns : CleanSummary :=
  ⟨3661, 2000000, 5, [12]⟩

/-- A concrete cycle whose three fetches all succeed, with run history. -/
def envRecordOk : CycleEnv :=
  ⟨true, .ok consumableZero, .ok summaryRuns, .ok recordNew, none, fun _ => ""⟩

/-- An aggregator state holding the old cached record. -/
def stCached : AggState :=
  ⟨1, "cleaning", "CLEANING", some oldRunJ, .jobj []⟩

set_option maxRecDepth 10000 in
/-- C9 counterexample: in a concrete successful cycle with run history, the
snapshot assembly event occurs strictly BEFORE the record fetch settles (the
fetch is fire-and-forget, not awaited), and the published snapshot carries
the old cached last-run record even though the fetch succeeded with a
different one; the fetched record only lands in the cache afterwards. -/
theorem record_fetch_not_awaited :
    (updateAttributesTopic envRecordOk stCached).1.findIdx isAssembleEv <
      (updateAttributesTopic envRecordOk stCached).1.findIdx isRecordSettledEv ∧
    (updateAttributesTopic envRecordOk stCached).1.findIdx isRecordSettledEv <
      (updateAttributesTopic envRecordOk stCached).1.length ∧
    stringify (updateAttributesTopic envRecordOk stCached).2.last_attributes =
      stringify (assembleResponse consumableZero summaryRuns (some oldRunJ)
        "cleaning" "CLEANING" none) ∧
    stringify oldRunJ ≠ stringify (lastRunStatsJ recordNew (fun _ => "")) ∧
    (updateAttributesTopic envRecordOk stCached).2.last_run_stats =
      some (lastRunStatsJ recordNew (fun _ => "")) := by
  refine ⟨by decide, by decide, by decide, by decide, ?_⟩
  rfl

/-- C9 amended: the cycle is chained through steps 1 and 2 (a consumable-fetch
failure means the summary fetch never starts), but the most-recent-run detail
fetch is initiated without being awaited: the snapshot assembly always occurs
before that fetch settles, the assembled snapshot uses whichever Last-Run
Record was cached when the cycle started (whether the fetch later succeeds or
fails), and a failed fetch leaves the cache unchanged. -/
theorem record_fetch_fire_and_forget :
    (∀ (env : CycleEnv) (s : AggState) (e : Unit),
      env.connected = true → env.consumable = .error e →
      Ev.fetchSummary ∉ (updateAttributesTopic env s).1) ∧
    (∀ (env : CycleEnv) (s : AggState) (c : ConsumableRes) (m : CleanSummary),
      env.connected = true → env.consumable = .ok c → env.summary = .ok m →
      m.last_runs.length > 0 →
      Ev.fetchRecord ∈ (updateAttributesTopic env s).1 ∧
      (updateAttributesTopic env s).1.findIdx isAssembleEv <
        (updateAttributesTopic env s).1.findIdx isRecordSettledEv ∧
      (updateAttributesTopic env s).1.findIdx isRecordSettledEv <
        (updateAttributesTopic env s).1.length ∧
      (shouldPublish (assembleResponse c m s.last_run_stats s.last_ha_state s.last_state
          env.zoneStatus) s.last_attributes = true →
        Ev.publishAttributes (stringify (assembleResponse c m s.last_run_stats
          s.last_ha_state s.last_state env.zoneStatus)) ∈ (updateAttributesTopic env s).1) ∧
      (∀ e2, env.record = .error e2 →
        (updateAttributesTopic env s).2.last_run_stats = s.last_run_stats)) := by
  constructor
  · intro env s e hc h1
    unfold updateAttributesTopic
    rw [hc, h1]
    simp
  · intro env s c m hc h1 h2 h3
    have H := updateAttributesTopic_success_record env s c m hc h1 h2 h3
    rw [H]
    cases h4 : env.record with
    | ok d =>
      cases hpub : shouldPublish (assembleResponse c m s.last_run_stats s.last_ha_state
          s.last_state env.zoneStatus) s.last_attributes
      · refine ⟨by simp, ?_, ?_, ?_, ?_⟩
        · simp [List.findIdx_cons, isAssembleEv, isRecordSettledEv]
        · simp [List.findIdx_cons, isRecordSettledEv]
        · intro hp
          exact absurd hp (by simp)
        · intro e2 he2
          exact Except.noConfusion he2
      · refine ⟨by simp, ?_, ?_, ?_, ?_⟩
        · simp [List.findIdx_cons, isAssembleEv, isRecordSettledEv]
        · simp [List.findIdx_cons, isRecordSettledEv]
        · intro _
          simp
        · intro e2 he2
          exact Except.noConfusion he2
    | error e =>
      cases hpub : shouldPublish (assembleResponse c m s.last_run_stats s.last_ha_state
          s.last_state env.zoneStatus) s.last_attributes
      · refine ⟨by simp, ?_, ?_, ?_, ?_⟩
        · simp [List.findIdx_cons, isAssembleEv, isRecordSettledEv]
        · simp [List.findIdx_cons, isRecordSettledEv]
        · intro hp
          exact absurd hp (by simp)
        · intro e2 he2
          simp
      · refine ⟨by simp, ?_, ?_, ?_, ?_⟩
        · simp [List.findIdx_cons, isAssembleEv, isRecordSettledEv]
        · simp [List.findIdx_cons, isRecordSettledEv]
        · intro _
          simp
        · intro e2 he2
          simp

set_option maxRecDepth 10000 in
/-- C9 amended witness: the ordering clause applied to the concrete
successful cycle `envRecordOk` — assembly precedes the record settlement. -/
theorem record_fetch_fire_and_forget_witness :
    (updateAttributesTopic envRecordOk stCached).1.findIdx isAssembleEv <
      (updateAttributesTopic envRecordOk stCached).1.findIdx isRecordSettledEv :=
  (record_fetch_fire_and_forget.2 envRecordOk stCached consumableZero summaryRuns
    rfl rfl rfl (by decide)).2.1

/-! ## miio codec (source: `Codec.handleResponse`, Codec.js lines 471-509)

Buffers are byte lists; the md5 digest and the AES-decrypt-then-JSON-parse
step are external primitives the function composes, so they are passed as
parameters (`decryptParse` returning `none` models `decipher.final()` or
`JSON.parse` throwing, which aborts `handleResponse` without a return
value). -/

namespace Codec

/-- The 32-byte header: `Buffer.alloc` zero-fills, `response.copy` copies at
most the first 32 bytes of the response over it. -/
def header (response : List Nat) : List Nat :=
  response.take 32 ++ List.replicate (32 - response.length) 0

/-- The encrypted payload: `response.slice(32)`. -/
def encryptedPayload (response : List Nat) : List Nat :=
  response.drop 32

/-- The received checksum: `header.slice(16)`. -/
def checksum (response : List Nat) : List Nat :=
  (header response).drop 16

/-- The expected digest:
`md5(header.slice(0,16) ++ token ++ encrypted)`. -/
def digest (md5 : List Nat → List Nat) (token response : List Nat) : List Nat :=
  md5 ((header response).take 16 ++ token ++ encryptedPayload response)

/-- Big-endian 32-bit read at `off` (`readUInt32BE`). -/
def readUInt32BE (l : List Nat) (off : Nat) : Nat :=
  l.getD off 0 * 16777216 + l.getD (off + 1) 0 * 65536 +
    l.getD (off + 2) 0 * 256 + l.getD (off + 3) 0

/-- The value `handleResponse` returns. -/
structure CodecResult where
  stamp : Nat
  deviceId : Nat
  msg : Option JVal
  token : Option (List Nat)

/-- `Codec.handleResponse`: checksum mismatch with a non-empty payload only
logs (both `msg` and `token` stay `null`); checksum mismatch with an empty
payload yields the checksum bytes as a new `token`; a matching checksum with
a non-empty payload decrypts and parses `msg` (a throw inside aborts the
call, modelled as `none`); otherwise both stay `null`. -/
def handleResponse (md5 : List Nat → List Nat) (decryptParse : List Nat → Option JVal)
    (token response : List Nat) : Option CodecResult :=
  let stamp := readUInt32BE (header response) 12
  let deviceId := readUInt32BE (header response) 8
  if checksum response ≠ digest md5 token response then
    if (encryptedPayload response).length > 0 then
      some { stamp := stamp, deviceId := deviceId, msg := none, token := none }
    else
      some { stamp := stamp, deviceId := deviceId, msg := none,
             token := some (checksum response) }
  else if (encryptedPayload response).length > 0 then
    match decryptParse (encryptedPayload response) with
    | some m => some { stamp := stamp, deviceId := deviceId, msg := some m, token := none }
    | none => none
  else
    some { stamp := stamp, deviceId := deviceId, msg := none, token := none }

end Codec

/-- C10: whenever `handleResponse` returns, at most one of `msg` and `token`
is non-null; `token` is non-null only on a checksum mismatch with empty
payload, `msg` is non-null only on a checksum match with non-empty payload,
and a mismatch with non-empty payload leaves both null (the error is only
logged). -/
theorem handleResponse_msg_token_exclusive :
    ∀ (md5 : List Nat → List Nat) (decryptParse : List Nat → Option JVal)
      (token response : List Nat) (r : Codec.CodecResult),
      Codec.handleResponse md5 decryptParse token response = some r →
      (r.token ≠ none →
        Codec.checksum response ≠ Codec.digest md5 token response ∧
        Codec.encryptedPayload response = []) ∧
      (r.msg ≠ none →
        Codec.checksum response = Codec.digest md5 token response ∧
        Codec.encryptedPayload response ≠ []) ∧
      (r.token = none ∨ r.msg = none) ∧
      (Codec.checksum response ≠ Codec.digest md5 token response →
        Codec.encryptedPayload response ≠ [] → r.token = none ∧ r.msg = none) := by
  intro md5 decryptParse token response r hr
  unfold Codec.handleResponse at hr
  by_cases hsum : Codec.checksum response ≠ Codec.digest md5 token response
  · rw [if_pos hsum] at hr
    by_cases hlen : (Codec.encryptedPayload response).length > 0
    · rw [if_pos hlen] at hr
      cases hr
      refine ⟨fun ht => absurd rfl ht, fun hm => absurd rfl hm, Or.inl rfl,
        fun _ _ => ⟨rfl, rfl⟩⟩
    · rw [if_neg hlen] at hr
      cases hr
      have hemp : Codec.encryptedPayload response = [] := by
        simpa using List.eq_nil_of_length_eq_zero (by omega)
      refine ⟨fun _ => ⟨hsum, hemp⟩, fun hm => absurd rfl hm, Or.inr rfl,
        fun _ hne => absurd hemp hne⟩
  · rw [if_neg hsum] at hr
    have hsum2 : Codec.checksum response = Codec.digest md5 token response := by
      by_contra hne
      exact hsum hne
    by_cases hlen : (Codec.encryptedPayload response).length > 0
    · rw [if_pos hlen] at hr
      cases hdp : decryptParse (Codec.encryptedPayload response) with
      | none => rw [hdp] at hr; cases hr
      | some m =>
        rw [hdp] at hr
        cases hr
        have hne : Codec.encryptedPayload response ≠ [] := by
          intro hcontra
          rw [hcontra] at hlen
          simp at hlen
        refine ⟨fun ht => absurd rfl ht, fun _ => ⟨hsum2, hne⟩, Or.inl rfl,
          fun hs _ => absurd hsum2 hs⟩
    · rw [if_neg hlen] at hr
      cases hr
      refine ⟨fun ht => absurd rfl ht, fun hm => absurd rfl hm, Or.inl rfl,
        fun hs _ => absurd hsum2 hs⟩

/-- C10 witness: an all-zero 8-byte response (shorter than the header, empty
payload) under an md5 stub returning sixteen ones: the checksum mismatches,
so the zero checksum comes back as a fresh `token` and `msg` stays null. -/
theorem handleResponse_msg_token_exclusive_witness :
    ((some (List.replicate 16 0) : Option (List Nat)) ≠ none →
      Codec.checksum (List.replicate 8 0) ≠
        Codec.digest (fun _ => List.replicate 16 1) [] (List.replicate 8 0) ∧
      Codec.encryptedPayload (List.replicate 8 0) = []) ∧
    ((none : Option JVal) ≠ none →
      Codec.checksum (List.replicate 8 0) =
        Codec.digest (fun _ => List.replicate 16 1) [] (List.replicate 8 0) ∧
      Codec.encryptedPayload (List.replicate 8 0) ≠ []) ∧
    ((some (List.replicate 16 0) : Option (List Nat)) = none ∨ (none : Option JVal) = none) ∧
    (Codec.checksum (List.replicate 8 0) ≠
        Codec.digest (fun _ => List.replicate 16 1) [] (List.replicate 8 0) →
      Codec.encryptedPayload (List.replicate 8 0) ≠ [] →
      (some (List.replicate 16 0) : Option (List Nat)) = none ∧ (none : Option JVal) = none) :=
  handleResponse_msg_token_exclusive (fun _ => List.replicate 16 1) (fun _ => none)
    [] (List.replicate 8 0)
    { stamp := 0, deviceId := 0, msg := none, token := some (List.replicate 16 0) }
    (by rfl)

end Valetudo
